/-
  Verification development for the RVRanger listing-normalization scripts.

  Each definition below is a shallow embedding of a concrete Python function
  from the repository (file and function named in the doc comment).  Strings
  are modelled as `List Char`; Python `None`-able results as `Option`;
  functions that can raise an exception return `Except Unit _` where
  `.error ()` models an uncaught Python exception.  Python `float` parsing
  and arithmetic are modelled with exact natural/rational arithmetic
  (numerator, fractional digits, power of ten); on every input considered in
  the theorems the CPython double computation yields the same integer after
  truncation.  Python `re` scanning is modelled directly: leftmost match,
  greedy character classes (no backtracking is needed for the patterns at
  hand because the adjacent character classes are disjoint), and `\b`
  word-boundary semantics (a position between a word and a non-word
  character, string edges counting as non-word).
-/
import Mathlib

namespace RVRanger

/-! ### Character helpers -/

/-- Python `\w` (ASCII fragment): letters, digits, underscore. -/
def isWordChar (c : Char) : Bool :=
  c.isAlphanum || c = '_'

/-- Character-class membership by code-point interval, e.g. `[0-2]`. -/
def charBetween (lo hi c : Char) : Bool :=
  lo.toNat ≤ c.toNat && c.toNat ≤ hi.toNat

/-- Python `str.lower()` on a character list. -/
def lowerList (cs : List Char) : List Char :=
  cs.map Char.toLower

/-- Numeric value of a digit list, most significant first
    (the value Python's `int`/`float` give to a run of digits). -/
def natOfDigits (cs : List Char) : Nat :=
  cs.foldl (fun acc c => 10 * acc + (c.toNat - 48)) 0

/-- Decimal rendering of a natural number (models Python `str(n)` for
    `n : Nat`); fuel-based so that it reduces by `decide`/`rfl`. -/
def natToCharsAux : Nat → Nat → List Char
  | 0, _ => []
  | fuel + 1, n =>
    if n < 10 then [Nat.digitChar n]
    else natToCharsAux fuel (n / 10) ++ [Nat.digitChar (n % 10)]

def natToChars (n : Nat) : List Char :=
  natToCharsAux (n + 1) n

/-- Models Python `str(i)` for an integer. -/
def intToString (i : Int) : String :=
  if i < 0 then "-" ++ ⟨natToChars i.natAbs⟩ else ⟨natToChars i.natAbs⟩

/-! ### Python `float(...)` on cleaned numeric strings

`pyFloatParse cs` models `float(String(cs))` restricted to the strings the
scrapers can produce after comma/suffix removal: an optional run of digits,
an optional `.`, an optional run of digits.  Returns
`(intPart, fracPart, fracLen)` representing `intPart + fracPart / 10^fracLen`,
or `none` when CPython raises `ValueError` (empty string, bare `"."`,
more than one dot, or any other character). -/
def pyFloatParse (cs : List Char) : Option (Nat × Nat × Nat) :=
  let d1 := cs.takeWhile Char.isDigit
  let rest := cs.drop d1.length
  match rest with
  | [] => if d1.isEmpty then none else some (natOfDigits d1, 0, 0)
  | '.' :: r =>
    let d2 := r.takeWhile Char.isDigit
    if r.drop d2.length ≠ [] then none          -- junk after the digits
    else if d1.isEmpty && d2.isEmpty then none  -- float(".") raises
    else some (natOfDigits d1, natOfDigits d2, d2.length)
  | _ => none

/-- `int(f * mult)` for the parsed value above: exact truncation toward zero
    of a non-negative value. -/
def truncMul (p : Nat × Nat × Nat) (mult : Nat) : Nat :=
  (p.1 * mult * 10 ^ p.2.2 + p.2.1 * mult) / 10 ^ p.2.2

/-! ### `src/improved_rv_scraper.py` — `extract_price` (lines 37-63)

Identical code appears in `src/scripts/prevost_scraper.py` (lines 28-54).

```python
if not text: return None
if "call" in text.lower() and "pricing" in text.lower(): return 999999
price_match = re.search(r'\$\s*([0-9,]+(?:\.[0-9]+)?(?:K|M)?)', text)
if not price_match: return None
price_text = price_match.group(1)
if price_text.endswith('K'):   price_value = float(price_text.replace('K','').replace(',','')) * 1000
elif price_text.endswith('M'): price_value = float(price_text.replace('M','').replace(',','')) * 1000000
else:                          price_value = float(price_text.replace(',',''))
return int(price_value)
```
-/

/-- Python `needle in hay` on strings: contiguous-substring test. -/
def containsSub (needle : List Char) : List Char → Bool
  | [] => needle.isEmpty
  | c :: rest => needle.isPrefixOf (c :: rest) || containsSub needle rest

/-- The "call for pricing" cue: both substrings present in the lowercase text. -/
def callCue (text : List Char) : Bool :=
  containsSub "call".toList (lowerList text) && containsSub "pricing".toList (lowerList text)

/-- Match `\s*([0-9,]+(?:\.[0-9]+)?(?:K|M)?)` directly after a `$`,
    returning the captured group.  Greedy without backtracking is faithful:
    `\s`, `[0-9,]`, `\.[0-9]+` and `K|M` start with pairwise disjoint
    character sets. -/
def priceBodyImp (cs : List Char) : Option (List Char) :=
  let cs1 := cs.dropWhile Char.isWhitespace
  let intPart := cs1.takeWhile (fun c => c.isDigit || c = ',')
  if intPart.isEmpty then none
  else
    let rest := cs1.drop intPart.length
    let (frac, rest2) :=
      match rest with
      | '.' :: r =>
        let ds := r.takeWhile Char.isDigit
        if ds.isEmpty then (([] : List Char), rest) else ('.' :: ds, r.drop ds.length)
      | _ => ([], rest)
    let suffix :=
      match rest2 with
      | 'K' :: _ => ['K']
      | 'M' :: _ => ['M']
      | _ => []
    some (intPart ++ frac ++ suffix)

/-- Leftmost `re.search` scan for the price pattern: the pattern can only
    start at a `$`. -/
def searchPriceImp : List Char → Option (List Char)
  | [] => none
  | c :: rest =>
    if c = '$' then
      match priceBodyImp rest with
      | some g => some g
      | none => searchPriceImp rest
    else searchPriceImp rest

/-- Suffix/comma clean-up and numeric conversion of the captured group
    (the `endswith('K') / endswith('M') / else` chain).  `.error ()` models
    an uncaught `ValueError` from `float`. -/
def convertPriceGroup (g : List Char) : Except Unit Nat :=
  let clean (kill : Option Char) :=
    g.filter (fun c => c ≠ ',' && (match kill with | some k => c ≠ k | none => true))
  if g.getLast? = some 'K' then
    match pyFloatParse (clean (some 'K')) with
    | some p => .ok (truncMul p 1000)
    | none => .error ()
  else if g.getLast? = some 'M' then
    match pyFloatParse (clean (some 'M')) with
    | some p => .ok (truncMul p 1000000)
    | none => .error ()
  else
    match pyFloatParse (clean none) with
    | some p => .ok (truncMul p 1)
    | none => .error ()

/-- `improved_rv_scraper.extract_price`.  `.ok none` = Python `None`,
    `.ok (some n)` = price `n`, `.error ()` = an exception escapes. -/
def extract_price_imp (text : List Char) : Except Unit (Option Nat) :=
  if text = [] then .ok none
  else if callCue text then .ok (some 999999)
  else
    match searchPriceImp text with
    | none => .ok none
    | some g => (convertPriceGroup g).map some

/-! ### `src/improved_rv_scraper.py` — `extract_year` (lines 66-80)

Identical code appears in `src/scrape_prevost.py` (lines 49-63) and
`src/scripts/prevost_scraper.py` (lines 57-71).

```python
if not text: return None
year_match = re.search(r'\b(20[0-2][0-9])\b|\b\'([0-2][0-9])\b', text)
if not year_match: return None
if year_match.group(1): return int(year_match.group(1))
else: return 2000 + int(year_match.group(2))
```

`\b` holds at a position iff exactly one side is a word character (string
edges are non-word).  Hence the first alternative needs a non-word/edge
character on both sides of the four digits, while `\b` before the
apostrophe (a non-word character) requires the preceding character to be a
word character. -/

/-- `\b` before a word character: previous character is the string edge or
    non-word. -/
def edgeBoundary : Option Char → Bool
  | none => true
  | some p => !isWordChar p

/-- `\b` after a word character: the remaining text is empty or starts with
    a non-word character. -/
def tailBoundary : List Char → Bool
  | [] => true
  | c :: _ => !isWordChar c

/-- First alternative `\b(20[0-2][0-9])\b` tried at the current position
    (`prev` = character before the position). -/
def yearAlt1 (prev : Option Char) : List Char → Option Nat
  | c1 :: c2 :: c3 :: c4 :: rest =>
    if edgeBoundary prev && c1 = '2' && c2 = '0' &&
       charBetween '0' '2' c3 && charBetween '0' '9' c4 && tailBoundary rest then
      some (2000 + 10 * (c3.toNat - 48) + (c4.toNat - 48))
    else none
  | _ => none

/-- Second alternative `\b\'([0-2][0-9])\b` tried at the current position.
    The boundary before the (non-word) apostrophe demands a word character
    right before it. -/
def yearAlt2 (prev : Option Char) : List Char → Option Nat
  | q :: d1 :: d2 :: rest =>
    if (match prev with | some p => isWordChar p | none => false) &&
       q = '\'' && charBetween '0' '2' d1 && charBetween '0' '9' d2 && tailBoundary rest then
      some (2000 + 10 * (d1.toNat - 48) + (d2.toNat - 48))
    else none
  | _ => none

/-- Leftmost scan: at each position try alternative 1 then alternative 2. -/
def yearScan (prev : Option Char) : List Char → Option Nat
  | [] => none
  | c :: rest =>
    match yearAlt1 prev (c :: rest) with
    | some y => some y
    | none =>
      match yearAlt2 prev (c :: rest) with
      | some y => some y
      | none => yearScan (some c) rest

/-- `improved_rv_scraper.extract_year`. -/
def extract_year_imp (text : List Char) : Option Nat :=
  if text = [] then none else yearScan none text

/-! ### `src/scrape_prevost.py` — `extract_price` (lines 27-47)

```python
if not text: return None
price_match = re.search(r'\$\s*([0-9,.]+(?:\.[0-9]+)?(?:K|M)?)', text)
if not price_match: return None
price_text = price_match.group(1).strip()
if 'K' in price_text:   price_value = float(price_text.replace('K','').replace(',','')) * 1000
elif 'M' in price_text: price_value = float(price_text.replace('M','').replace(',','')) * 1000000
else:                   price_value = float(price_text.replace(',',''))
return int(price_value)
```

The character class `[0-9,.]+` already contains the dot, so after the
greedy run the optional `(?:\.[0-9]+)?` group never matches (the next
character cannot be a dot), and the captured group is the digit/comma/dot
run plus an optional `K`/`M`. -/

def priceBodySP (cs : List Char) : Option (List Char) :=
  let cs1 := cs.dropWhile Char.isWhitespace
  let intPart := cs1.takeWhile (fun c => c.isDigit || c = ',' || c = '.')
  if intPart.isEmpty then none
  else
    let suffix :=
      match cs1.drop intPart.length with
      | 'K' :: _ => ['K']
      | 'M' :: _ => ['M']
      | _ => []
    some (intPart ++ suffix)

def searchPriceSP : List Char → Option (List Char)
  | [] => none
  | c :: rest =>
    if c = '$' then
      match priceBodySP rest with
      | some g => some g
      | none => searchPriceSP rest
    else searchPriceSP rest

/-- Suffix handling via `'K' in price_text` / `'M' in price_text`
    membership (not `endswith`), then `float` conversion. -/
def convertPriceGroupSP (g : List Char) : Except Unit Nat :=
  let clean (kill : Option Char) :=
    g.filter (fun c => c ≠ ',' && (match kill with | some k => c ≠ k | none => true))
  if g.contains 'K' then
    match pyFloatParse (clean (some 'K')) with
    | some p => .ok (truncMul p 1000)
    | none => .error ()
  else if g.contains 'M' then
    match pyFloatParse (clean (some 'M')) with
    | some p => .ok (truncMul p 1000000)
    | none => .error ()
  else
    match pyFloatParse (clean none) with
    | some p => .ok (truncMul p 1)
    | none => .error ()

/-- `scrape_prevost.extract_price`.  (`group(1).strip()` is the identity
    here: the captured group never contains whitespace.) -/
def extract_price_sp (text : List Char) : Except Unit (Option Nat) :=
  if text = [] then .ok none
  else
    match searchPriceSP text with
    | none => .ok none
    | some g => (convertPriceGroupSP g).map some

/-! ### `src/enhanced_scraper.py` — pattern library and detectors

```python
KNOWN_CONVERTERS = ["Marathon", "Liberty", "Millennium", "Featherlite", "Vantare",
    "Emerald", "Newell", "Prevost", "Country Coach", "Angola",
    "American Heritage", "Foretravel", "Newmar", "Entegra",
    "Tiffin", "Monaco", "Parliament", "Executive"]
CHASSIS_MODELS = ["H3-45", "X3-45", "XLII", "XL", "H345", "X345", "H3", "X3"]

def detect_converter(text):
    for converter in KNOWN_CONVERTERS:
        if re.search(r'\b' + re.escape(converter) + r'\b', text, re.IGNORECASE):
            return converter
    return None

def detect_chassis_model(text):
    for model in CHASSIS_MODELS:
        if re.search(r'\b' + re.escape(model) + r'\b', text, re.IGNORECASE):
            return model
    return None
```
-/

def KNOWN_CONVERTERS : List String :=
  ["Marathon", "Liberty", "Millennium", "Featherlite", "Vantare",
   "Emerald", "Newell", "Prevost", "Country Coach", "Angola",
   "American Heritage", "Foretravel", "Newmar", "Entegra",
   "Tiffin", "Monaco", "Parliament", "Executive"]

def CHASSIS_MODELS : List String :=
  ["H3-45", "X3-45", "XLII", "XL", "H345", "X345", "H3", "X3"]

/-- Case-insensitive literal match of `pat` against a prefix of `cs`,
    returning the remaining text on success (re.IGNORECASE). -/
def matchesCI : List Char → List Char → Option (List Char)
  | [], cs => some cs
  | _ :: _, [] => none
  | p :: ps, c :: cs => if p.toLower = c.toLower then matchesCI ps cs else none

/-- `re.search(r'\b' + re.escape(pat) + r'\b', text, re.IGNORECASE)` for a
    pattern whose first and last characters are word characters (true of
    every vocabulary entry): boundary-delimited, case-insensitive scan. -/
def wordTokenSearch (pat : List Char) (prev : Option Char) : List Char → Bool
  | [] => false
  | c :: rest =>
    (edgeBoundary prev &&
      match matchesCI pat (c :: rest) with
      | some rem => tailBoundary rem
      | none => false)
    || wordTokenSearch pat (some c) rest

/-- `enhanced_scraper.detect_converter`: first vocabulary entry (in list
    order) found in the text, else `None`. -/
def detect_converter (text : List Char) : Option String :=
  KNOWN_CONVERTERS.find? (fun m => wordTokenSearch m.toList none text)

/-- `enhanced_scraper.detect_chassis_model`. -/
def detect_chassis_model (text : List Char) : Option String :=
  CHASSIS_MODELS.find? (fun m => wordTokenSearch m.toList none text)

/-! ### `src/enhanced_scraper.py` — `extract_price` (lines 44-54)

```python
match = re.search(r"\$[\d,]+", text)
if match:
    price_str = match.group().replace('$', '').replace(',', '')
    try: return int(price_str)
    except ValueError: return None
return None
```

The `try/except` makes this variant total: `int("")` (from a group such as
`"$,"`) is caught and mapped to `None`. -/

def searchPriceES : List Char → Option (List Char)
  | [] => none
  | c :: rest =>
    if c = '$' then
      let ds := rest.takeWhile (fun c => c.isDigit || c = ',')
      if ds.isEmpty then searchPriceES rest else some ds
    else searchPriceES rest

/-- Python `int(s)` on a comma-stripped digit run: fails only when empty. -/
def extract_price_es (text : List Char) : Option Nat :=
  match searchPriceES text with
  | none => none
  | some g =>
    let digits := g.filter (fun c => c ≠ ',')
    if digits.isEmpty then none else some (natOfDigits digits)

/-! ### `src/enhanced_scraper.py` — `extract_year` (lines 56-61)

```python
match = re.search(r"\b(19|20)\d{2}\b", text)
if match: return int(match.group())
return None
```
-/

def yearAltES (prev : Option Char) : List Char → Option Nat
  | c1 :: c2 :: c3 :: c4 :: rest =>
    if edgeBoundary prev &&
       ((c1 = '1' && c2 = '9') || (c1 = '2' && c2 = '0')) &&
       charBetween '0' '9' c3 && charBetween '0' '9' c4 && tailBoundary rest then
      some (1000 * (c1.toNat - 48) + 100 * (c2.toNat - 48) +
            10 * (c3.toNat - 48) + (c4.toNat - 48))
    else none
  | _ => none

def yearScanES (prev : Option Char) : List Char → Option Nat
  | [] => none
  | c :: rest =>
    match yearAltES prev (c :: rest) with
    | some y => some y
    | none => yearScanES (some c) rest

def extract_year_es (text : List Char) : Option Nat :=
  yearScanES none text

/-! ### `src/table_scraper.py` — `extract_field_from_text` (lines 47-56)

```python
pattern = field_name + r':([^:]+?)(?:$|(?=\w+:))'
match = re.search(pattern, text, re.IGNORECASE)
if match: return match.group(1).strip()
return None
```

The lazy group `([^:]+?)` captures the shortest non-empty run of non-colon
characters after the literal `field_name:` that is followed by the string
end or by a `\w+:` lookahead.  In the lookahead, `\w+` is followed by `:`
(disjoint character sets), so a greedy word-run plus a colon test is
faithful.  `extract_converter` (lines 79-81) instantiates this with
`"Converter"` — the captured value is free text, not checked against any
vocabulary. -/

/-- The `(?=\w+:)` lookahead. -/
def lookaheadWordColon (cs : List Char) : Bool :=
  let w := cs.takeWhile isWordChar
  !w.isEmpty && (cs.drop w.length).head? = some ':'

/-- Lazy extension of the capture: `acc` (reversed) holds the ≥ 1 characters
    consumed so far; stop as soon as the terminator holds. -/
def lazyCapture (acc : List Char) : List Char → Option (List Char)
  | [] => some acc.reverse
  | c :: rest =>
    if lookaheadWordColon (c :: rest) then some acc.reverse
    else if c = ':' then none
    else lazyCapture (c :: acc) rest

/-- Try the whole pattern at the current position; on failure `re.search`
    moves one character right. -/
def fieldScan (label : List Char) : List Char → Option (List Char)
  | [] => none
  | c :: rest =>
    (match matchesCI (label ++ [':']) (c :: rest) with
     | some afterLabel =>
       match afterLabel with
       | [] => none
       | a :: arest => if a = ':' then none else lazyCapture [a] arest
     | none => none)
    |>.orElse (fun _ => fieldScan label rest)

/-- Python `str.strip()`. -/
def stripChars (cs : List Char) : List Char :=
  (cs.dropWhile Char.isWhitespace).reverse.dropWhile Char.isWhitespace |>.reverse

/-- `table_scraper.extract_field_from_text text field_name`. -/
def extract_field_from_text (text : List Char) (fieldName : String) : Option String :=
  if text = [] then none
  else (fieldScan fieldName.toList text).map (fun g => ⟨stripChars g⟩)

/-- `table_scraper.extract_converter`. -/
def extract_converter_ts (text : List Char) : Option String :=
  extract_field_from_text text "Converter"

/-! ### `src/import_improved_data.py` — the Existing-state merge
(`import_listing_to_database`, lines 174-243)

```python
existing_id = find_existing_listing(listing.get("title"), conn)  # match key: title
converter_id = ensure_converter_exists(listing["converter"], conn) if listing.get("converter") else None
chassis_type_id = ensure_chassis_type_exists(listing["chassis_model"], conn) if listing.get("chassis_model") else None
if existing_id:
    UPDATE rv_listings SET
        description = %s,            -- listing.get("description", "")
        year = %s, price = %s, mileage = %s, length = %s, slides = %s,
        converter_id = %s, chassis_type_id = %s,
        featured_image = COALESCE(%s, featured_image),
        is_featured = true, updated_at = NOW()
    WHERE id = %s
```

Only `featured_image` has COALESCE semantics; every other column is set to
the incoming parameter, so an incoming SQL NULL replaces the stored value.
The `converters`/`chassis_types` rows are found-or-created by name, so the
foreign keys are modelled by the names themselves.  The `rv_images`
insertions live in a separate table and are not part of the merged row. -/

/-- An incoming record from `improved_prevost_listings.json`
    (`dict.get` of a missing key = `none`). -/
structure IncomingListing where
  title : Option String
  description : Option String
  year : Option Int
  price : Option Int
  mileage : Option Int
  length : Option Int
  slides : Option Int
  manufacturer : Option String
  converter : Option String
  chassis_model : Option String
  featured_image : Option String
  deriving Repr, DecidableEq

/-- The stored `rv_listings` row (columns touched by the UPDATE). -/
structure RVRow where
  title : String
  description : String
  year : Option Int
  price : Option Int
  mileage : Option Int
  length : Option Int
  slides : Option Int
  converter_id : Option String
  chassis_type_id : Option String
  featured_image : Option String
  is_featured : Bool
  deriving Repr, DecidableEq

/-- Python truthiness of an optional string (`if listing.get("converter"):`). -/
def strTruthy : Option String → Bool
  | some s => s ≠ ""
  | none => false

/-- The Existing-state merge: the UPDATE applied to the stored row. -/
def mergeExistingRow (existing : RVRow) (incoming : IncomingListing) : RVRow :=
  { title := existing.title
    description := incoming.description.getD ""
    year := incoming.year
    price := incoming.price
    mileage := incoming.mileage
    length := incoming.length
    slides := incoming.slides
    converter_id := if strTruthy incoming.converter then incoming.converter else none
    chassis_type_id := if strTruthy incoming.chassis_model then incoming.chassis_model else none
    featured_image := incoming.featured_image.orElse (fun _ => existing.featured_image)
    is_featured := true }

/-! ### `src/import_table_listings.py` — title synthesis in
`clean_listing_data` (lines 230-247)

```python
if not listing.get("title"):
    title_parts = []
    if listing.get("year"):         title_parts.append(str(listing.get("year")))
    if listing.get("manufacturer"): title_parts.append(listing.get("manufacturer"))
    if listing.get("converter"):    title_parts.append(listing.get("converter"))
    if listing.get("chassis_model"):title_parts.append(listing.get("chassis_model"))
    if title_parts: listing["title"] = " ".join(title_parts)
    else:           listing["title"] = "Luxury RV Coach"
```

The model covers exactly this title branch; the description/location
defaulting later in the same function does not influence the title. -/

/-- The fields `clean_listing_data` reads for the title. -/
structure TListing where
  title : Option String
  year : Option Int
  manufacturer : Option String
  converter : Option String
  chassis_model : Option String
  deriving Repr, DecidableEq

/-- Python truthiness of an optional int (`0` is falsy). -/
def intTruthy : Option Int → Bool
  | some i => i ≠ 0
  | none => false

/-- `" ".join(parts)`. -/
def joinSpace : List String → String
  | [] => ""
  | [x] => x
  | x :: y :: rest => x ++ " " ++ joinSpace (y :: rest)

def titleParts (l : TListing) : List String :=
  (if intTruthy l.year then [intToString (l.year.getD 0)] else []) ++
  (if strTruthy l.manufacturer then [l.manufacturer.getD ""] else []) ++
  (if strTruthy l.converter then [l.converter.getD ""] else []) ++
  (if strTruthy l.chassis_model then [l.chassis_model.getD ""] else [])

/-- The title produced by `clean_listing_data`. -/
def cleanListingTitle (l : TListing) : String :=
  if strTruthy l.title then l.title.getD ""
  else if titleParts l = [] then "Luxury RV Coach"
  else joinSpace (titleParts l)

/-! ### JSON interchange (C9)

`src/enhanced_scraper.py` `save_listings_to_json` (lines 261-265) writes the
listing dicts with `json.dump`; the import scripts read them back with
`json.load`.  JSON values are modelled by `JValue`; `json.dump`/`json.load`
compose to the identity on the values below (finite maps of strings,
integers, nulls and string arrays), so the file layer is the identity and
the round trip is stated at the value level.  The record carries exactly
the fields of the dict built at `enhanced_scraper.py` lines 237-251. -/

inductive JValue where
  | jnull
  | jint (n : Int)
  | jstr (s : String)
  | jarr (xs : List JValue)
  | jobj (fields : List (String × JValue))
  deriving Repr, BEq

/-- A listing as emitted by `enhanced_scraper.scrape_prevost_listings`:
    `title`, `description`, `price`, `featured_image` are always present
    (the loop skips fragments without them); the remaining fields may be
    `None`. -/
structure EListing where
  title : String
  description : String
  price : Int
  year : Option Int
  manufacturer : String
  converter : Option String
  chassis_model : Option String
  mileage : Option Int
  length : Option Int
  slides : Option Int
  featured_image : String
  additional_images : List String
  detail_url : Option String
  deriving Repr, DecidableEq

def encOptInt : Option Int → JValue
  | none => .jnull
  | some n => .jint n

def encOptStr : Option String → JValue
  | none => .jnull
  | some s => .jstr s

/-- `json.dump` of the listing dict (keys in construction order). -/
def encodeEListing (l : EListing) : JValue :=
  .jobj
    [("title", .jstr l.title),
     ("description", .jstr l.description),
     ("price", .jint l.price),
     ("year", encOptInt l.year),
     ("manufacturer", .jstr l.manufacturer),
     ("converter", encOptStr l.converter),
     ("chassis_model", encOptStr l.chassis_model),
     ("mileage", encOptInt l.mileage),
     ("length", encOptInt l.length),
     ("slides", encOptInt l.slides),
     ("featured_image", .jstr l.featured_image),
     ("additional_images", .jarr (l.additional_images.map .jstr)),
     ("detail_url", encOptStr l.detail_url)]

def lookupJ (fields : List (String × JValue)) (k : String) : Option JValue :=
  match fields with
  | [] => none
  | (k', v) :: rest => if k' = k then some v else lookupJ rest k

def decStr : JValue → Option String
  | .jstr s => some s
  | _ => none

def decInt : JValue → Option Int
  | .jint n => some n
  | _ => none

def decOptInt : JValue → Option (Option Int)
  | .jnull => some none
  | .jint n => some (some n)
  | _ => none

def decOptStr : JValue → Option (Option String)
  | .jnull => some none
  | .jstr s => some (some s)
  | _ => none

def decStrList : List JValue → Option (List String)
  | [] => some []
  | .jstr s :: rest => (decStrList rest).map (s :: ·)
  | _ => none

def decStrArr : JValue → Option (List String)
  | .jarr xs => decStrList xs
  | _ => none

/-- `json.load` of one listing object back into a record. -/
def decodeEListing : JValue → Option EListing
  | .jobj f =>
    match (lookupJ f "title").bind decStr,
          (lookupJ f "description").bind decStr,
          (lookupJ f "price").bind decInt,
          (lookupJ f "year").bind decOptInt,
          (lookupJ f "manufacturer").bind decStr,
          (lookupJ f "converter").bind decOptStr,
          (lookupJ f "chassis_model").bind decOptStr,
          (lookupJ f "mileage").bind decOptInt,
          (lookupJ f "length").bind decOptInt,
          (lookupJ f "slides").bind decOptInt,
          (lookupJ f "featured_image").bind decStr,
          (lookupJ f "additional_images").bind decStrArr,
          (lookupJ f "detail_url").bind decOptStr with
    | some t, some d, some p, some y, some m, some cv, some ch,
      some mi, some le, some sl, some fi, some ai, some du =>
      some ⟨t, d, p, y, m, cv, ch, mi, le, sl, fi, ai, du⟩
    | _, _, _, _, _, _, _, _, _, _, _, _, _ => none
  | _ => none

/-! ### `src/enhanced_scraper.py` — the listing loop of
`scrape_prevost_listings` (lines 161-259) as a per-row pipeline (C10)

For each `div.row` the loop: skips the row when title tag, price tag or
image tag is missing; extracts the price and skips when it is falsy
(`if not price: continue`); skips when the primary image download fails;
then assembles the listing dict.  External collaborator results (HTML tag
presence, detail-page description, downloaded image paths) are inputs of
the row.  The record below keeps the fields whose data flow reaches the
price gate or is examined by the claims; `mileage`/`length`/`slides`
(independent extractors over the description) and `detail_url`
(a pass-through) are projected away — none of them can influence the
emitted `price`. -/

structure ScrapeRow where
  hasTitleTag : Bool
  hasPriceTag : Bool
  hasImgTag : Bool
  priceText : String
  title : String
  fullDescription : String
  /-- result of `download_image(image_url)` for the primary image -/
  primaryImagePath : Option String
  additionalImagePaths : List String
  deriving Repr, DecidableEq

/-- The projection of the assembled listing dict relevant here. -/
structure PipeListing where
  title : String
  description : String
  price : Nat
  year : Option Nat
  manufacturer : String
  converter : Option String
  chassis_model : Option String
  featured_image : String
  additional_images : List String
  deriving Repr, DecidableEq

/-- One loop iteration: `none` = `continue`, `some l` = `listings.append(l)`. -/
def processRow (r : ScrapeRow) : Option PipeListing :=
  if !r.hasTitleTag || !r.hasPriceTag || !r.hasImgTag then none
  else
    match extract_price_es r.priceText.toList with
    | none => none
    | some price =>
      if price = 0 then none  -- `if not price: continue`
      else
        match r.primaryImagePath with
        | none => none        -- `if not primary_image_path: continue`
        | some imgPath =>
          if imgPath = "" then none
          else
            some
              { title := r.title
                description := r.fullDescription
                price := price
                year := (extract_year_es r.title.toList).orElse
                  (fun _ => extract_year_es r.fullDescription.toList)
                manufacturer := "Prevost"
                converter := (detect_converter r.title.toList).orElse
                  (fun _ => detect_converter r.fullDescription.toList)
                chassis_model := (detect_chassis_model r.title.toList).orElse
                  (fun _ => detect_chassis_model r.fullDescription.toList)
                featured_image := imgPath
                additional_images := r.additionalImagePaths }

/-- The whole loop: one optional listing per row. -/
def scrapeRows (rows : List ScrapeRow) : List PipeListing :=
  rows.filterMap processRow

/-! ### `src/prevost_scraper.py` — the per-link body of `scrape`
(lines 66-149)

```python
cells = row.find_all("td")
if len(cells) < 2: continue
...
href = link.get("href", "")
if not href or "ad_id" not in href: continue
row_text = row.get_text(" ", strip=True)
if not row_text: continue
price_match = re.search(r"\$[\d,]+", row_text)
if not price_match: continue
try:
    price = int(price_match.group(0).replace("$", "").replace(",", ""))
except ValueError:
    continue
title = link.get_text(strip=True)
if not title or len(title) < 5:
    title = row_text.split("$")[0].strip()[:100]
if title in seen or not title: continue
seen.add(title)
...
year_m = re.search(r"\b(19|20)\d{2}\b", row_text)
yr = int(year_m.group()) if year_m else None
...
listings.append({"title": title, ..., "price": price, "year": yr, ...,
                 "featured_image": featured})
```

Unlike `enhanced_scraper` and `table_scraper`, there is NO falsy-price gate
here: the loop only requires the `\$[\d,]+` regex to match and the integer
conversion to succeed, so a price of 0 is appended.  The price/integer step
is the same computation as `enhanced_scraper.extract_price`
(`extract_price_es`): leftmost `\$[\d,]+` match, `$`/comma removal, `int`
with the empty-string failure treated as a skip.  The `\b(19|20)\d{2}\b`
year regex is the one modelled by `extract_year_es`.  The record keeps the
fields on the price data path plus year and image; `detail_url` (a URL
join of the href), `model`, `slides` and `converter` come from independent
extractions that cannot affect the emitted price and are projected away. -/

/-- External inputs of one link iteration: the link's `href` and text, the
    row's cell count and flattened text, and the image-download result. -/
structure PSRow where
  numCells : Nat
  href : String
  rowText : String
  linkText : String
  /-- result of `download_img(img_src, title)` (may be `None`) -/
  featuredImage : Option String
  deriving Repr, DecidableEq

structure PSListing where
  title : String
  price : Nat
  year : Option Nat
  featured_image : Option String
  deriving Repr, DecidableEq

/-- One link iteration of `prevost_scraper.scrape`: `none` = `continue`,
    `some l` = `listings.append(l)`.  `seen` is the dedup set accumulated
    so far. -/
def processLinkPS (seen : List String) (r : PSRow) : Option PSListing :=
  if r.numCells < 2 then none
  else if r.href = "" || !containsSub "ad_id".toList r.href.toList then none
  else if r.rowText = "" then none
  else
    match extract_price_es r.rowText.toList with
    | none => none
    | some price =>
      let title :=
        if r.linkText = "" || r.linkText.length < 5 then
          (⟨(stripChars (r.rowText.toList.takeWhile (fun c => c ≠ '$'))).take 100⟩ : String)
        else r.linkText
      if seen.contains title || title = "" then none
      else
        some
          { title := title
            price := price
            year := extract_year_es r.rowText.toList
            featured_image := r.featuredImage }

/-! ## Helper lemmas -/

/-- The price pattern can only start at a `$`: a `$`-free prefix is skipped. -/
theorem searchPriceImp_append_of_no_dollar (p rest : List Char) (h : '$' ∉ p) :
    searchPriceImp (p ++ rest) = searchPriceImp rest := by
  induction p with
  | nil => rfl
  | cons c p ih =>
    have hc : c ≠ '$' := fun hc => h (hc ▸ List.mem_cons_self c p)
    have hp : '$' ∉ p := fun hm => h (List.mem_cons_of_mem c hm)
    simp only [List.cons_append, searchPriceImp, if_neg hc]
    exact ih hp

/-! ## Claims -/

/-- C1 (counterexample): merging an incoming record with `price: null,
description: "new desc"` onto an existing row with `price = 500000,
description = "old"` does NOT keep the existing price: the UPDATE writes the
incoming NULL, so the merged row has `price = NULL` (and description
"new desc"), refuting the claimed null-never-overwrites semantics. -/
theorem c1_counterexample :
    (mergeExistingRow
      { title := "2004 Liberty Coach", description := "old", year := none,
        price := some 500000, mileage := none, length := none, slides := none,
        converter_id := none, chassis_type_id := none, featured_image := none,
        is_featured := false }
      { title := some "2004 Liberty Coach", description := some "new desc",
        year := none, price := none, mileage := none, length := none,
        slides := none, manufacturer := none, converter := none,
        chassis_model := none, featured_image := none }).price = none ∧
    (mergeExistingRow
      { title := "2004 Liberty Coach", description := "old", year := none,
        price := some 500000, mileage := none, length := none, slides := none,
        converter_id := none, chassis_type_id := none, featured_image := none,
        is_featured := false }
      { title := some "2004 Liberty Coach", description := some "new desc",
        year := none, price := none, mileage := none, length := none,
        slides := none, manufacturer := none, converter := none,
        chassis_model := none, featured_image := none }).description
      = "new desc" := by
  exact ⟨rfl, rfl⟩

/-- C1 (amended): in the Existing-state merge of
`import_improved_data.import_listing_to_database`, the stored value never
survives for any mergeable column: description, year, price, mileage,
length and slides are set unconditionally to the incoming values (an
incoming null erases the stored value, a missing description becomes the
empty string), and the converter and chassis foreign keys are recomputed
from the incoming record alone — the incoming name when it is truthy, NULL
when it is absent or the empty string (the truthiness gate around
`ensure_converter_exists` / `ensure_chassis_type_exists`).  Only
`featured_image` has COALESCE semantics: the existing path is kept exactly
when the incoming one is null. -/
theorem c1_merge_overwrites_amended (e : RVRow) (i : IncomingListing) :
    (mergeExistingRow e i).price = i.price ∧
    (mergeExistingRow e i).description = i.description.getD "" ∧
    (mergeExistingRow e i).year = i.year ∧
    (mergeExistingRow e i).mileage = i.mileage ∧
    (mergeExistingRow e i).length = i.length ∧
    (mergeExistingRow e i).slides = i.slides ∧
    (mergeExistingRow e i).converter_id
      = (if strTruthy i.converter then i.converter else none) ∧
    (mergeExistingRow e i).chassis_type_id
      = (if strTruthy i.chassis_model then i.chassis_model else none) ∧
    (mergeExistingRow e i).featured_image
      = (match i.featured_image with
         | some pth => some pth
         | none => e.featured_image) ∧
    (mergeExistingRow e i).title = e.title := by
  refine ⟨rfl, rfl, rfl, rfl, rfl, rfl, rfl, rfl, ?_, rfl⟩
  cases h : i.featured_image <;> simp [mergeExistingRow, Option.orElse, h]

/-- C2 (counterexample): price extraction returns the LEFTMOST dollar
pattern, so a text that contains `"$1,234,567"` can still yield a different
price: `"$5 then $1,234,567"` contains `"$1,234,567"` yet extraction yields
5, refuting "any text containing $1,234,567 yields 1234567". -/
theorem c2_counterexample :
    containsSub "$1,234,567".toList "$5 then $1,234,567".toList = true ∧
    extract_price_imp "$5 then $1,234,567".toList = .ok (some 5) := by
  constructor
  · decide
  · rfl

/-- C2 (amended): price extraction converts the leftmost dollar pattern of
the text — digits/commas with commas removed, a trailing `K` multiplying by
1,000 and a trailing `M` by 1,000,000.  When `"$1,234,567"` is the first
dollar sign of a text without the call-for-pricing cue the result is
1234567; `"$950K"` yields 950000 and `"$1.2M"` yields 1200000; a text with
no dollar pattern (and no cue) yields null. -/
theorem c2_price_extraction_amended :
    (∀ p : List Char, '$' ∉ p → callCue (p ++ "$1,234,567".toList) = false →
      extract_price_imp (p ++ "$1,234,567".toList) = .ok (some 1234567)) ∧
    extract_price_imp "$950K".toList = .ok (some 950000) ∧
    extract_price_imp "$1.2M".toList = .ok (some 1200000) ∧
    extract_price_imp "no price here".toList = .ok none := by
  refine ⟨?_, rfl, rfl, rfl⟩
  intro p hp hcue
  unfold extract_price_imp
  rw [if_neg (by simp), hcue]
  rw [searchPriceImp_append_of_no_dollar p _ hp]
  rfl

/-- C2 (witness). -/
theorem c2_price_extraction_amended_witness :
    extract_price_imp ("Priced at ".toList ++ "$1,234,567".toList)
      = .ok (some 1234567) :=
  c2_price_extraction_amended.1 "Priced at ".toList (by decide) (by decide)

/-- C3 (counterexample): the sentinel branch tests the substrings `"call"`
and `"pricing"`, not the phrase "call for price": on `"Call for Price"`
(which contains no `"pricing"`) extraction returns null, not the sentinel
999999 the claim demands. -/
theorem c3_counterexample :
    extract_price_imp "Call for Price".toList = .ok none ∧
    extract_price_imp "Call for Price".toList ≠ .ok (some 999999) := by
  constructor
  · rfl
  · intro h
    rw [show extract_price_imp "Call for Price".toList = .ok none from rfl] at h
    simp at h

/-- C3 (amended): whenever the lowercased text contains both substrings
`"call"` and `"pricing"` (e.g. "please call for pricing"), price extraction
returns the sentinel 999999; the check precedes the dollar-pattern scan, so
it wins over any price pattern in the same text.  A "call for price" phrase
without "pricing" does not trigger the sentinel. -/
theorem c3_sentinel_amended (t : List Char) (h : callCue t = true) :
    extract_price_imp t = .ok (some 999999) := by
  have ht : t ≠ [] := by
    rintro rfl
    exact absurd h (by decide)
  unfold extract_price_imp
  rw [if_neg ht, h]
  rfl

/-- C3 (witness): the sentinel fires and takes precedence over the
`$100,000` pattern in the same text. -/
theorem c3_sentinel_amended_witness :
    extract_price_imp "Please call for pricing $100,000".toList
      = .ok (some 999999) :=
  c3_sentinel_amended _ (by decide)

/-- Reading off the bounds of a character-class test. -/
theorem charBetween_toNat {lo hi c : Char} (h : charBetween lo hi c = true) :
    lo.toNat ≤ c.toNat ∧ c.toNat ≤ hi.toNat := by
  simpa [charBetween] using h

/-- Any match of the first year alternative lies in [2000, 2029]. -/
theorem yearAlt1_range {prev : Option Char} {cs : List Char} {y : Nat}
    (h : yearAlt1 prev cs = some y) : 2000 ≤ y ∧ y ≤ 2029 := by
  rcases cs with _ | ⟨c1, _ | ⟨c2, _ | ⟨c3, _ | ⟨c4, rest⟩⟩⟩⟩ <;>
    simp only [yearAlt1] at h
  all_goals try exact Option.noConfusion h
  split at h
  · rename_i hcond
    simp only [Bool.and_eq_true] at hcond
    obtain ⟨⟨⟨⟨_, _⟩, h3⟩, h4⟩, _⟩ := hcond
    obtain ⟨h3l, h3r⟩ := charBetween_toNat h3
    obtain ⟨h4l, h4r⟩ := charBetween_toNat h4
    have e0 : ('0' : Char).toNat = 48 := rfl
    have e2 : ('2' : Char).toNat = 50 := rfl
    have e9 : ('9' : Char).toNat = 57 := rfl
    obtain rfl : 2000 + 10 * (c3.toNat - 48) + (c4.toNat - 48) = y :=
      Option.some.inj h
    omega
  · exact absurd h (by simp)

/-- Any match of the second (apostrophe) year alternative lies in
[2000, 2029]. -/
theorem yearAlt2_range {prev : Option Char} {cs : List Char} {y : Nat}
    (h : yearAlt2 prev cs = some y) : 2000 ≤ y ∧ y ≤ 2029 := by
  rcases cs with _ | ⟨q, _ | ⟨d1, _ | ⟨d2, rest⟩⟩⟩ <;>
    simp only [yearAlt2] at h
  all_goals try exact Option.noConfusion h
  split at h
  · rename_i hcond
    simp only [Bool.and_eq_true] at hcond
    obtain ⟨⟨⟨⟨_, _⟩, h1⟩, h2⟩, _⟩ := hcond
    obtain ⟨h1l, h1r⟩ := charBetween_toNat h1
    obtain ⟨h2l, h2r⟩ := charBetween_toNat h2
    have e0 : ('0' : Char).toNat = 48 := rfl
    have e2 : ('2' : Char).toNat = 50 := rfl
    have e9 : ('9' : Char).toNat = 57 := rfl
    obtain rfl : 2000 + 10 * (d1.toNat - 48) + (d2.toNat - 48) = y :=
      Option.some.inj h
    omega
  · exact absurd h (by simp)

/-- Every successful scan result lies in [2000, 2029]. -/
theorem yearScan_range : ∀ (cs : List Char) (prev : Option Char) (y : Nat),
    yearScan prev cs = some y → 2000 ≤ y ∧ y ≤ 2029 := by
  intro cs
  induction cs with
  | nil => intro prev y h; exact absurd h (by simp [yearScan])
  | cons c rest ih =>
    intro prev y h
    unfold yearScan at h
    cases h1 : yearAlt1 prev (c :: rest) with
    | some v =>
      rw [h1] at h
      exact Option.some.inj h ▸ yearAlt1_range h1
    | none =>
      rw [h1] at h
      cases h2 : yearAlt2 prev (c :: rest) with
      | some v =>
        rw [h2] at h
        exact Option.some.inj h ▸ yearAlt2_range h2
      | none =>
        rw [h2] at h
        exact ih (some c) y h

/-- C4 (counterexample): the year extractor of `improved_rv_scraper` /
`scrape_prevost` matches `20[0-2][0-9]`, not [1900, 2029]: `"1950"` yields
null (the claim demands 1950).  Moreover the apostrophe pattern `\b'nn\b`
requires a word character right before the apostrophe, so a standalone
`"'22"` also yields null (the claim demands 2022). -/
theorem c4_counterexample :
    extract_year_imp "1950".toList = none ∧
    extract_year_imp "'22".toList = none := by
  exact ⟨rfl, rfl⟩

/-- C4 (amended): year extraction returns the first occurrence of a
boundary-delimited 4-digit year `20nn` with `nn ≤ 29`, or of an
apostrophe-prefixed 2-digit form `'nn` (`nn ≤ 29`, the apostrophe directly
preceded by a word character) mapped to `2000 + nn`; every returned year
lies in [2000, 2029] — never outside — and `"2022"` as well as a
word-attached `"Coach'22"` yield 2022. -/
theorem c4_year_amended :
    (∀ (t : List Char) (y : Nat),
      extract_year_imp t = some y → 2000 ≤ y ∧ y ≤ 2029) ∧
    extract_year_imp "2022".toList = some 2022 ∧
    extract_year_imp "Coach'22".toList = some 2022 := by
  refine ⟨?_, rfl, rfl⟩
  intro t y h
  unfold extract_year_imp at h
  split at h
  · exact absurd h (by simp)
  · exact yearScan_range t none y h

/-- C4 (witness). -/
theorem c4_year_amended_witness : 2000 ≤ 2022 ∧ 2022 ≤ 2029 :=
  c4_year_amended.1 "2022".toList 2022 (by rfl)

/-- C5: the claim (no extractor ever raises) is contradicted by
`scrape_prevost.extract_price` on `"$,"`: the regex group is `","`, comma
removal leaves the empty string, and `float('')` raises an uncaught
`ValueError`.  On the spec's own example `"$abc"` the extractor does
return null. -/
theorem c5_price_extractor_raises :
    extract_price_sp "$,".toList = .error () ∧
    extract_price_sp "$abc".toList = .ok none := by
  exact ⟨rfl, rfl⟩

/-- `matchesCI` always consumes exactly the pattern. -/
theorem matchesCI_append_self (pat s : List Char) :
    matchesCI pat (pat ++ s) = some s := by
  induction pat with
  | nil => rfl
  | cons c cs ih => simp [matchesCI, ih]

/-- The character standing immediately before the pattern occurrence:
    the last of the skipped prefix, else the ambient previous character. -/
def lastOr (prev : Option Char) : List Char → Option Char
  | [] => prev
  | c :: rest => lastOr (some c) rest

/-- One unfolding step of the boundary-delimited scan. -/
theorem wordTokenSearch_cons (pat : List Char) (prev : Option Char)
    (c : Char) (rest : List Char) :
    wordTokenSearch pat prev (c :: rest) =
      ((edgeBoundary prev &&
        match matchesCI pat (c :: rest) with
        | some rem => tailBoundary rem
        | none => false)
      || wordTokenSearch pat (some c) rest) := rfl

/-- If the text decomposes as `p ++ pat ++ s` with word boundaries on both
    sides of `pat`, the boundary-delimited scan succeeds. -/
theorem wordTokenSearch_of_decomp (pat s : List Char) (hpat : pat ≠ [])
    (hs : tailBoundary s = true) :
    ∀ (p : List Char) (prev : Option Char),
      edgeBoundary (lastOr prev p) = true →
      wordTokenSearch pat prev (p ++ (pat ++ s)) = true := by
  intro p
  induction p with
  | nil =>
    intro prev hb
    obtain ⟨c0, pat', rfl⟩ := List.exists_cons_of_ne_nil hpat
    have hsplit : ([] : List Char) ++ ((c0 :: pat') ++ s) = c0 :: (pat' ++ s) := by
      simp
    rw [hsplit, wordTokenSearch_cons]
    have h2 : c0 :: (pat' ++ s) = (c0 :: pat') ++ s := by simp
    rw [h2, matchesCI_append_self]
    have hb' : edgeBoundary prev = true := hb
    simp [hb', hs]
  | cons c p' ih =>
    intro prev hb
    have hrec := ih (some c) hb
    have hsplit : (c :: p') ++ (pat ++ s) = c :: (p' ++ (pat ++ s)) := by simp
    rw [hsplit, wordTokenSearch_cons, hrec]
    simp

/-- C6: on any text in which `"H3-45"` occurs as a word-boundary-delimited
token, chassis detection returns `"H3-45"` — in particular never the bare
`"H3"`, which sits later in the ordered `CHASSIS_MODELS` list. -/
theorem c6_chassis_longest_match (p s : List Char)
    (hp : edgeBoundary (lastOr none p) = true) (hs : tailBoundary s = true) :
    detect_chassis_model (p ++ "H3-45".toList ++ s) = some "H3-45" := by
  unfold detect_chassis_model CHASSIS_MODELS
  rw [List.append_assoc]
  have hsearch :=
    wordTokenSearch_of_decomp "H3-45".toList s (by decide) hs p none hp
  exact List.find?_cons_of_pos _ hsearch

/-- C6 (witness). -/
theorem c6_chassis_longest_match_witness :
    detect_chassis_model
      ("Prevost ".toList ++ "H3-45".toList ++ " and a bare H3 too".toList)
      = some "H3-45" :=
  c6_chassis_longest_match _ _ (by decide) (by decide)

/-- C7 (counterexample): `table_scraper.extract_converter` captures free
text after a `"Converter:"` label: on `"Converter:Bloggs"` it records
`"Bloggs"`, which is not a member of the known-converter vocabulary — the
assembled record does carry a value outside the closed vocabulary. -/
theorem c7_counterexample :
    extract_converter_ts "Converter:Bloggs".toList = some "Bloggs" ∧
    "Bloggs" ∉ KNOWN_CONVERTERS := by
  constructor
  · rfl
  · decide

/-- C7 (amended): the vocabulary-closure property holds for the
`enhanced_scraper` detectors — any non-null converter (resp. chassis) they
produce is a member of `KNOWN_CONVERTERS` (resp. `CHASSIS_MODELS`) — but
not for `table_scraper`/`prevost_scraper`, whose labeled-field extraction
records arbitrary free text (see the counterexample). -/
theorem c7_vocabulary_amended (t : List Char) (r : String) :
    (detect_converter t = some r → r ∈ KNOWN_CONVERTERS) ∧
    (detect_chassis_model t = some r → r ∈ CHASSIS_MODELS) :=
  ⟨fun h => List.mem_of_find?_eq_some h, fun h => List.mem_of_find?_eq_some h⟩

/-- C7 (witness). -/
theorem c7_vocabulary_amended_witness : "Marathon" ∈ KNOWN_CONVERTERS :=
  (c7_vocabulary_amended "a Marathon coach".toList "Marathon").1 (by decide)

/-- The fuel-based decimal rendering never returns the empty list. -/
theorem natToCharsAux_ne_nil (fuel n : Nat) : natToCharsAux (fuel + 1) n ≠ [] := by
  unfold natToCharsAux
  split <;> simp

theorem natToChars_ne_nil (n : Nat) : natToChars n ≠ [] :=
  natToCharsAux_ne_nil n n

theorem length_pos_of_ne_empty {s : String} (h : s ≠ "") : 0 < s.length := by
  obtain ⟨data⟩ := s
  cases data with
  | nil => exact absurd rfl h
  | cons c cs => simp [String.length]

theorem intToString_length_pos (i : Int) : 0 < (intToString i).length := by
  unfold intToString
  split
  · rw [String.length_append]
    have h1 : "-".length = 1 := rfl
    omega
  · show 0 < (natToChars i.natAbs).length
    exact List.length_pos.mpr (natToChars_ne_nil i.natAbs)

/-- Every token the title synthesizer joins is non-empty (Python truthiness
    filters out empty strings and zero years). -/
theorem titleParts_pos (l : TListing) : ∀ s ∈ titleParts l, 0 < s.length := by
  intro s hs
  unfold titleParts at hs
  simp only [List.mem_append] at hs
  have hOptStr : ∀ (o : Option String),
      strTruthy o = true → 0 < (o.getD "").length := by
    intro o ho
    cases o with
    | none => exact absurd ho (by simp [strTruthy])
    | some m => exact length_pos_of_ne_empty (of_decide_eq_true ho)
  rcases hs with ((h | h) | h) | h <;> split at h <;>
    simp only [List.mem_singleton, List.not_mem_nil] at h
  · exact h ▸ intToString_length_pos _
  · exact h ▸ hOptStr _ (by assumption)
  · exact h ▸ hOptStr _ (by assumption)
  · exact h ▸ hOptStr _ (by assumption)

theorem joinSpace_head_le (x : String) (xs : List String) :
    x.length ≤ (joinSpace (x :: xs)).length := by
  cases xs with
  | nil => exact Nat.le_refl _
  | cons y ys =>
    show x.length ≤ (x ++ " " ++ joinSpace (y :: ys)).length
    rw [String.length_append, String.length_append]
    omega

/-- The assembled title is never empty. -/
theorem cleanListingTitle_length_pos (l : TListing) :
    0 < (cleanListingTitle l).length := by
  unfold cleanListingTitle
  split
  · rename_i ht
    cases hT : l.title with
    | none => rw [hT] at ht; exact absurd ht (by simp [strTruthy])
    | some s =>
      rw [hT] at ht
      simp only [Option.getD_some]
      exact length_pos_of_ne_empty (of_decide_eq_true ht)
  · split
    · decide
    · rename_i hne
      obtain ⟨x, xs, hx⟩ := List.exists_cons_of_ne_nil hne
      rw [hx]
      have hxmem : x ∈ titleParts l := hx ▸ List.mem_cons_self x xs
      exact Nat.lt_of_lt_of_le (titleParts_pos l x hxmem) (joinSpace_head_le x xs)

/-- C8 (counterexample): the synthesizer concatenates year, manufacturer,
converter, chassis model with NO duplicate-token skipping and NO fixed
brand suffix: a record with manufacturer and converter both `"Prevost"`
yields the duplicated `"Prevost Prevost"`, and the spec's own example
record yields `"2009 Liberty H3-45"` with no brand suffix appended. -/
theorem c8_counterexample :
    cleanListingTitle
      { title := none, year := none, manufacturer := some "Prevost",
        converter := some "Prevost", chassis_model := none }
      = "Prevost Prevost" ∧
    cleanListingTitle
      { title := none, year := some 2009, manufacturer := none,
        converter := some "Liberty", chassis_model := some "H3-45" }
      = "2009 Liberty H3-45" := by
  exact ⟨rfl, rfl⟩

/-- C8 (amended): for a record lacking a usable title,
`import_table_listings.clean_listing_data` joins, in order, year (if
truthy), manufacturer (if truthy), converter (if truthy), chassis model
(if truthy) separated by spaces — no de-duplication, no appended brand
suffix — falling back to the fixed `"Luxury RV Coach"` when all four are
missing; the assembled title is never empty. -/
theorem c8_title_amended :
    (∀ l : TListing, 0 < (cleanListingTitle l).length) ∧
    cleanListingTitle
      { title := none, year := some 2009, manufacturer := some "Prevost",
        converter := some "Liberty", chassis_model := some "H3-45" }
      = "2009 Prevost Liberty H3-45" ∧
    cleanListingTitle
      { title := none, year := none, manufacturer := none,
        converter := none, chassis_model := none }
      = "Luxury RV Coach" := by
  exact ⟨cleanListingTitle_length_pos, rfl, rfl⟩

theorem decStrList_map (xs : List String) :
    decStrList (xs.map JValue.jstr) = some xs := by
  induction xs with
  | nil => rfl
  | cons x xs ih => simp [decStrList, ih]

theorem decOptInt_enc (o : Option Int) : decOptInt (encOptInt o) = some o := by
  cases o <;> rfl

theorem decOptStr_enc (o : Option String) : decOptStr (encOptStr o) = some o := by
  cases o <;> rfl

/-- C9: serializing a listing record to the JSON interchange value and
parsing it back reproduces the record exactly — every field, including the
null-valued optionals and the ordered image-path list, survives the round
trip. -/
theorem c9_json_roundtrip (l : EListing) :
    decodeEListing (encodeEListing l) = some l := by
  obtain ⟨t, d, p, y, m, cv, ch, mi, le, sl, fi, ai, du⟩ := l
  simp [encodeEListing, decodeEListing, lookupJ, decStr, decInt, decStrArr,
        decOptInt_enc, decOptStr_enc, decStrList_map]

/-- C10 (counterexample): the claim fails for the cited
`prevost_scraper.scrape` pipeline, which has no falsy-price gate: a row
whose text contains `"$0"` passes the regex-match and `int` conversion and
is appended with price 0 — not skipped, and not strictly positive. -/
theorem c10_counterexample :
    (processLinkPS []
      { numCells := 3,
        href := "public_ad.php?ad_id=123",
        rowText := "2005 Prevost XL Double Slide $0",
        linkText := "2005 Prevost XL Coach",
        featuredImage := none }).map (fun l => l.price) = some 0 := by
  rfl

/-- C10 (amended): the strictly-positive invariant does hold for the
`enhanced_scraper` pipeline (and `table_scraper` has the same
`if not price: continue` gate): rows whose price text yields no price, or
the falsy price 0, are skipped and produce no record at all, so every
emitted listing carries a strictly positive price.  It does not hold for
`prevost_scraper.scrape`, which guarantees only that a price is present
(regex match plus successful integer conversion), not that it is positive
(see the counterexample). -/
theorem c10_positive_price (rows : List ScrapeRow) (l : PipeListing)
    (h : l ∈ scrapeRows rows) : 0 < l.price := by
  unfold scrapeRows at h
  rw [List.mem_filterMap] at h
  obtain ⟨r, -, hr⟩ := h
  unfold processRow at hr
  split at hr
  · exact absurd hr (by simp)
  · split at hr
    · exact absurd hr (by simp)
    · split at hr
      · exact absurd hr (by simp)
      · split at hr
        · exact absurd hr (by simp)
        · split at hr
          · exact absurd hr (by simp)
          · cases Option.some.inj hr
            exact Nat.pos_of_ne_zero (by assumption)

/-- C10 (witness): a concrete two-row page — one row with price text
`"Price: $500,000"`, one "call for price" row — emits exactly one listing,
and its price is positive. -/
theorem c10_positive_price_witness :
    0 < (PipeListing.mk "2004 Liberty Coach" "desc" 500000 (some 2004)
          "Prevost" (some "Liberty") none "/images/rv_listings/a.jpg"
          []).price :=
  c10_positive_price
    [ScrapeRow.mk true true true "Price: $500,000" "2004 Liberty Coach"
       "desc" (some "/images/rv_listings/a.jpg") [],
     ScrapeRow.mk true true true "Please Call For Pricing" "2005 Marathon"
       "d" (some "/images/rv_listings/b.jpg") []]
    _ (by decide)

end RVRanger
